import Mathlib

/-!
Verification of the SimpleMediaServer HTTP file-hosting service.

This file gives a shallow embedding, in Lean, of the parts of the Python
source that the specification claims talk about, and proves (or refutes)
each claim against that embedding.

Modelling conventions:
* machine integers and byte counts are `Nat`; instants are `Int`
  (microseconds on a UTC timeline); `time.time()` values in the rate
  limiter are `Rat`;
* the SQLite table of File Records is a `List FileRecord`; the local disk
  is an association list from path to byte content;
* external collaborators (the `mimetypes` guesser, the PIL re-encoder,
  `uuid4`) are parameters of the embedded functions;
* a raised `HTTPException` is the `Resp.httpError` constructor, a returned
  `JSONResponse` is `Resp.json`, and an uncaught Python exception
  (IndexError, TypeError) is an explicit error constructor;
* `asyncio.create_task` without an `await` appends a `Task` to the list of
  pending detached tasks returned next to the response; `await`ing a task
  runs its effect before the response is produced (single-threaded
  cooperative scheduler).
-/

namespace SimpleMediaServer

/-! ## String helpers (Python `in`, `split(" ")`, `os.path.splitext`) -/

/-- Does `hay` start with `needle`? (char-list version). -/
def startsWithCh : List Char → List Char → Bool
  | _, [] => true
  | [], _ :: _ => false
  | a :: as, b :: bs => a = b && startsWithCh as bs

/-- Python substring containment `needle in hay`. -/
def containsSub (hay needle : List Char) : Bool :=
  startsWithCh hay needle ||
    match hay with
    | [] => false
    | _ :: t => containsSub t needle

/-- Python `str.split(" ")`: split on every single space, keeping empties. -/
def splitSpAux : List Char → List Char → List (List Char)
  | [], acc => [acc.reverse]
  | c :: rest, acc =>
      if c = ' ' then acc.reverse :: splitSpAux rest []
      else splitSpAux rest (c :: acc)

/-- Python `s.split(" ")` on a `String`. -/
def pySplitSpace (s : String) : List String :=
  (splitSpAux s.toList []).map fun l => String.mk l

/-- Index of the last dot of a char list, ignoring a run of leading dots
(Python `os.path.splitext` treats leading dots as part of the root). -/
def lastDotIdx (cs : List Char) (i : Nat) (found : Option Nat) : Option Nat :=
  match cs with
  | [] => found
  | c :: rest =>
      if c = '.' then lastDotIdx rest (i + 1) (some i)
      else lastDotIdx rest (i + 1) found

/-- Number of leading dots of a char list. -/
def leadingDots : List Char → Nat
  | [] => 0
  | c :: rest => if c = '.' then leadingDots rest + 1 else 0

/-- Python `os.path.splitext` for a bare file name (no directory part). -/
def splitext (s : String) : String × String :=
  let cs := s.toList
  let lead := leadingDots cs
  match lastDotIdx (cs.drop lead) lead none with
  | none => (s, "")
  | some i => (String.mk (cs.take i), String.mk (cs.drop i))

/-! ## Data model: the File Record, the table, the disk -/

/-- One row of the `files` table (services/database.py, `create_table`).
Timestamps are held as instants (`Int` microseconds, UTC); the Python code
stores them as strings and re-parses with `fetch_date` when comparing. -/
structure FileRecord where
  id : Nat
  file_path : String
  storage_path : String
  file_name : String
  file_type : String
  file_size : Nat
  access_count : Nat
  last_accessed : Option Int
  expires_at : Option Int
  uploaded_at : Int
deriving DecidableEq, Repr

/-- The `files` table. -/
abbrev DB := List FileRecord

/-- The local filesystem: path to byte content. -/
abbrev Disk := List (String × List Nat)

/-- `os.path.exists` / reading a file: first entry with the given path. -/
def diskGet : Disk → String → Option (List Nat)
  | [], _ => none
  | (q, c) :: rest, p => if q = p then some c else diskGet rest p

/-- `open(p, "wb")` then writing `c`: replace the entry or create it. -/
def diskWrite : Disk → String → List Nat → Disk
  | [], p, c => [(p, c)]
  | (q, c0) :: rest, p, c =>
      if q = p then (q, c) :: rest else (q, c0) :: diskWrite rest p c

/-- Append bytes to an already-open file (the streaming upload loop). -/
def diskAppend : Disk → String → List Nat → Disk
  | [], p, c => [(p, c)]
  | (q, c0) :: rest, p, c =>
      if q = p then (q, c0 ++ c) :: rest else (q, c0) :: diskAppend rest p c

/-- `os.remove p`. -/
def diskRemove : Disk → String → Disk
  | [], _ => []
  | (q, c) :: rest, p => if q = p then rest else (q, c) :: diskRemove rest p

/-! ## Files Database operations (services/database.py) -/

/-- `SELECT * FROM files WHERE file_path = ?` (first matching row). -/
def db_find : DB → String → Option FileRecord
  | [], _ => none
  | r :: rest, p => if r.file_path = p then some r else db_find rest p

/-- `UPDATE files SET access_count = access_count + 1,
last_accessed = CURRENT_TIMESTAMP WHERE file_path = ?`. -/
def db_bump_access (db : DB) (p : String) (now : Int) : DB :=
  db.map fun r =>
    if r.file_path = p then
      { r with access_count := r.access_count + 1, last_accessed := some now }
    else r

/-- `FilesTable.get_file`: select the row, and on a hit run the access
update in the same call.  The returned row is the selected snapshot, i.e.
the pre-update values. -/
def get_file (db : DB) (p : String) (now : Int) : Option FileRecord × DB :=
  match db_find db p with
  | none => (none, db)
  | some r => (some r, db_bump_access db p now)

/-- `FilesTable.update_file_access`. -/
def update_file_access (db : DB) (p : String) (now : Int) : DB :=
  db_bump_access db p now

/-- `FilesTable.delete_file` (the row removal; the boolean is whether a
row matched). -/
def db_delete_row (db : DB) (p : String) : DB :=
  db.filter fun r => r.file_path != p

/-! ## Responses and detached tasks -/

/-- The observable outcome of one request handler. -/
inductive Resp where
  /-- A returned `JSONResponse` with a status code and message body. -/
  | json (status : Nat) (body : String)
  /-- A `StreamingResponse` of the file in 8 KiB chunks. -/
  | fileStream (storage_path media_type : String) (disposition : Option String)
  /-- A whole-file `FileResponse`. -/
  | fileWhole (storage_path media_type : String) (disposition : Option String)
  /-- A raised `HTTPException(status_code, detail)`. -/
  | httpError (status : Nat) (detail : String)
  /-- An uncaught Python exception escaping the handler. -/
  | pyError (msg : String)
deriving DecidableEq, Repr

/-- A detached background task created with `asyncio.create_task` and not
awaited by the handler. -/
inductive Task where
  /-- `files_db.update_file_access(file_path)` from `serve_file`. -/
  | updateAccess (file_path : String)
  /-- `auto_delete_expired_file_task(data_id=...)` from `upload_file`. -/
  | autoDelete (data_id : Nat)
deriving DecidableEq, Repr

/-- Signature of the PIL re-encoder `_compress_bytes_sync`
(bytes, quality, max_width, to_webp, lossless) → bytes; external. -/
abbrev CompressFn := List Nat → Int → Option Int → Bool → Bool → List Nat

/-- Run one detached task to completion against the shared state. -/
def run_task (db : DB) (disk : Disk) (t : Task) (now : Int) : DB × Disk :=
  match t with
  | .updateAccess p => (update_file_access db p now, disk)
  | .autoDelete i =>
      -- auto_delete_expired_file_task: re-fetch by id, and if an expiry is
      -- set, sleep until it and then remove the on-disk bytes (row kept).
      match (db.filter fun r => r.id == i).head? with
      | none => (db, disk)
      | some r =>
          match r.expires_at with
          | none => (db, disk)
          | some _ => (db, diskRemove disk r.storage_path)

/-- Run a list of detached tasks in order. -/
def run_tasks (db : DB) (disk : Disk) (ts : List Task) (now : Int) : DB × Disk :=
  match ts with
  | [] => (db, disk)
  | t :: rest =>
      let (db1, disk1) := run_task db disk t now
      run_tasks db1 disk1 rest now

/-! ## File-serving routes (routes/file.py, `serve_file`) -/

/-- Content-type resolution in `serve_file`: stored type, else
`mimetypes.guess_type` on the file name, else octet-stream. -/
def resolve_content_type (guess : String → Option String) (fd : FileRecord) : String :=
  if fd.file_type = "" || fd.file_type = "application/octet-stream" then
    (guess fd.file_name).getD "application/octet-stream"
  else fd.file_type

/-- The response-shaping tail of `serve_file`: streaming for video and
audio, inline whole responses for PDF, a bare whole response for images,
and a whole response with an explicit disposition for everything else and
for every forced download. -/
def shape_response (as_download : Bool) (ct : String) (fd : FileRecord) : Resp :=
  if !as_download then
    if startsWithCh ct.toList "video/".toList
        || startsWithCh ct.toList "audio/".toList then
      .fileStream fd.storage_path ct (some ("inline; filename=" ++ fd.file_name))
    else if ct = "application/pdf" then
      .fileWhole fd.storage_path ct (some ("inline; filename=" ++ fd.file_name))
    else if startsWithCh ct.toList "image/".toList then
      .fileWhole fd.storage_path ct none
    else
      .fileWhole fd.storage_path ct (some ("inline; filename=" ++ fd.file_name))
  else
    .fileWhole fd.storage_path ct (some ("attachment; filename=" ++ fd.file_name))

/-- `serve_file(request, file_path, as_download)`.  Returns the response,
the table state at response time, and the detached tasks it spawned. -/
def serve_file (guess : String → Option String) (db : DB) (disk : Disk)
    (file_path : String) (as_download : Bool) (now : Int) :
    Resp × DB × List Task :=
  match get_file db file_path now with
  | (none, db1) => (.httpError 404 "File not found", db1, [])
  | (some fd, db1) =>
      let expired :=
        match fd.expires_at with
        | some e => decide (e < now)
        | none => false
      if expired then (.httpError 410 "File has expired", db1, [])
      else if fd.storage_path = "" || (diskGet disk fd.storage_path).isNone then
        (.httpError 404 "File not found in storage", db1, [])
      else
        let ct := resolve_content_type guess fd
        (shape_response as_download ct fd, db1, [.updateAccess file_path])

/-- Is a serve outcome a success (a served file rather than an error)? -/
def Resp.isServed : Resp → Bool
  | .fileStream _ _ _ => true
  | .fileWhole _ _ _ => true
  | _ => false

/-- One complete `view` request: the handler runs, the response goes out,
and the detached access-update task then runs to completion. -/
def view_once (guess : String → Option String) (db : DB) (disk : Disk)
    (file_path : String) (now : Int) : Resp × DB × Disk :=
  let (resp, db1, ts) := serve_file guess db disk file_path false now
  let (db2, disk2) := run_tasks db1 disk ts now
  (resp, db2, disk2)

/-! ## Delete route (routes/delete.py, `delete_file`) -/

/-- The delete endpoint, after auth and rate limiting.  Returns
the response and the table and disk state after the handler returns (the
handler awaits everything it does; it spawns no detached task). -/
def delete_route (db : DB) (disk : Disk) (file_path : String) (now : Int) :
    Resp × DB × Disk :=
  match get_file db file_path now with
  | (none, db1) => (.httpError 404 "File not found", db1, disk)
  | (some fd, db1) =>
      let expired :=
        match fd.expires_at with
        | some e => decide (e < now)
        | none => false
      if expired then (.httpError 410 "File has expired", db1, disk)
      else if fd.storage_path = "" || (diskGet disk fd.storage_path).isNone then
        (.httpError 404 "File not found in storage", db1, disk)
      else
        -- os.remove(storage_path); files_db.delete_file(file_path)
        (.json 200 "File deleted successfully",
          db_delete_row db1 file_path, diskRemove disk fd.storage_path)

/-! ## Compression route (routes/compression.py) -/

/-- A JSON value of the request body's fields. -/
inductive Jv where
  | jnum (n : Int)
  | jbool (b : Bool)
  | jstr (s : String)
  | jnull
deriving DecidableEq, Repr

/-- Python truthiness of a JSON body value. -/
def pyTruthy : Jv → Bool
  | .jnum n => n != 0
  | .jbool b => b
  | .jstr s => s != ""
  | .jnull => false

/-- Python `int(v)`: numbers and booleans convert, a string parses or
raises ValueError (`none` here). -/
def pyInt : Jv → Option Int
  | .jnum n => some n
  | .jbool b => some (if b then 1 else 0)
  | .jstr s => s.toInt?
  | .jnull => none

/-- The parsed JSON body of a compress request (`body.get` fields). -/
structure CompressBody where
  quality : Option Jv
  max_width : Option Jv
  to_webp : Option Jv
  lossless : Option Jv
deriving DecidableEq, Repr

/-- The compression parameters the handler computes from the body. -/
structure CompressParams where
  quality : Int
  max_width : Option Int
  to_webp : Bool
  lossless : Bool
deriving DecidableEq, Repr

/-- The parameter block of `compress_file`:
`int(body.get("quality", 75)) if body.get("quality", 75) else 75` and the
three analogous lines; a ValueError from `int(...)` yields `none` (the
handler then answers 400). -/
def parse_compress_params (b : CompressBody) : Option CompressParams :=
  let q0 := b.quality.getD (.jnum 75)
  let mw0 := b.max_width.getD .jnull
  let tw0 := b.to_webp.getD (.jbool false)
  let ll0 := b.lossless.getD (.jbool false)
  let qRes : Option Int := if pyTruthy q0 then pyInt q0 else some 75
  let mwRes : Option (Option Int) :=
    if pyTruthy mw0 then (pyInt mw0).map some else some none
  match qRes, mwRes with
  | some q, some mw =>
      some { quality := q, max_width := mw,
             to_webp := if pyTruthy tw0 then pyTruthy tw0 else false,
             lossless := if pyTruthy ll0 then pyTruthy ll0 else false }
  | _, _ => none

/-- `create_image_compression_task`: read the stored bytes, re-encode,
overwrite in place.  Any failure (such as a missing file) is caught and only
logged, leaving the disk unchanged. -/
def create_image_compression_task (cf : CompressFn) (disk : Disk)
    (storage_path : String) (ps : CompressParams) : Disk :=
  match diskGet disk storage_path with
  | none => disk
  | some bs =>
      diskWrite disk storage_path
        (cf bs ps.quality ps.max_width ps.to_webp ps.lossless)

/-- The compress endpoint handler.  The whole handler body sits in a
`try` whose `except Exception` returns a 500 `JSONResponse`; since
`HTTPException` is an `Exception`, the explicit 404/410 raises are caught
there too.  The compression task is created and then awaited
(`await asyncio.create_task(...)`), so its effect is part of the state at
response time and the returned detached-task list is empty. -/
def compress_file (cf : CompressFn) (db : DB) (disk : Disk)
    (file_path : String) (now : Int) (body : CompressBody) :
    Resp × DB × Disk × List Task :=
  match get_file db file_path now with
  | (none, db1) =>
      -- raise HTTPException(404) … swallowed by the outer except Exception
      (.json 500 "Error compressing file", db1, disk, [])
  | (some fd, db1) =>
      let expired :=
        match fd.expires_at with
        | some e => decide (e < now)
        | none => false
      if expired then
        -- raise HTTPException(410) … swallowed by the outer except Exception
        (.json 500 "Error compressing file", db1, disk, [])
      else
        match parse_compress_params body with
        | none => (.json 400 "Invalid query parameters", db1, disk, [])
        | some ps =>
            let disk1 := create_image_compression_task cf disk fd.storage_path ps
            (.json 200 "File compressed successfully", db1, disk1, [])

/-! ## Upload routes (routes/upload.py) -/

/-- The 5 GiB ceiling `file_size_limit = 5 * 1024 * 1024 * 1024`. -/
def FILE_SIZE_LIMIT : Nat := 5 * 1024 * 1024 * 1024

/-- The 413 detail string: the f-string divides the limit by 1024*1024
as a float, printing `5120.0`. -/
def TOO_LARGE_DETAIL : String := "File too large, max size is 5120.0MB"

/-- One multipart `UploadFile`: the client-supplied name and content type,
and the stream of chunks `await file.read(1024*1024)` yields (an empty
chunk ends the stream). -/
structure UploadInput where
  filename : Option String
  content_type : Option String
  chunks : List (List Nat)
deriving DecidableEq, Repr

/-- `get_safe_filename`: a fresh uuid plus the original extension, or
`.bin` when the name or extension is absent.  The uuid is a parameter
(external randomness). -/
def get_safe_filename (uuidStr : String) (filename : Option String) : String :=
  match filename with
  | none => uuidStr ++ ".bin"
  | some fn =>
      if fn = "" then uuidStr ++ ".bin"
      else
        let (_, ext) := splitext fn
        uuidStr ++ (if ext = "" then ".bin" else ext)

/-- `get_unique_path`: keep the preferred path if free, else append
`_1`, `_2`, … before the extension until a free path is found.  The
unbounded `while` is modelled with `disk.length + 1` candidate suffixes;
by pigeonhole one of them is always free, so the final fallback (kept to
make the function total) is unreachable. -/
def get_unique_path (disk : Disk) (preferred : String) : String :=
  if (diskGet disk preferred).isNone then preferred
  else
    let (base, ext) := splitext preferred
    let cands := (List.range (disk.length + 1)).map
      fun i => base ++ "_" ++ toString (i + 1) ++ ext
    match cands.find? (fun q => (diskGet disk q).isNone) with
    | some q => q
    | none => preferred

/-- The streaming write loop of `upload_file`: consume chunks until the
stream ends (empty chunk), accumulating bytes at `storage_path` and the
running size; when the running size exceeds the limit, close, delete the
partial file, and abort (`none` size signals the raised 413). -/
def write_loop (chunks : List (List Nat)) (disk : Disk)
    (storage_path : String) (size : Nat) : Disk × Option Nat :=
  match chunks with
  | [] => (disk, some size)
  | c :: cs =>
      if c.length = 0 then (disk, some size)
      else
        let size1 := size + c.length
        if FILE_SIZE_LIMIT < size1 then (diskRemove disk storage_path, none)
        else write_loop cs (diskAppend disk storage_path c) storage_path size1

/-- Content-type detection in `upload_file`: the client-supplied value,
else `mimetypes.guess_type` of the original name, else octet-stream. -/
def detect_content_type (guess : String → Option String)
    (client_type : Option String) (original : String) : String :=
  let ct0 := client_type.getD ""
  if ct0 = "" || ct0 = "application/octet-stream" then
    (guess original).getD "application/octet-stream"
  else ct0

/-- `AUTOINCREMENT`: one more than the largest id in the table. -/
def db_next_id (db : DB) : Nat :=
  (db.foldl (fun m r => max m r.id) 0) + 1

/-- The JSON payload a successful single upload returns. -/
structure UploadOk where
  file_name : String
  file_size : Nat
  content_type : String
  file_url : String
  download_url : String
  expires_at : Option Int
deriving DecidableEq, Repr

/-- Microseconds in one day, for `timedelta(days=expiry_days)`. -/
def MICROS_PER_DAY : Int := 86400000000

/-- `upload_file` (single upload), after auth and rate limiting.
`guess` models `mimetypes.guess_type`, `uuidStr` the generated uuid and
`base_url` the configured public base URL; the `description` form field is
accepted but unused, as in the source.  Returns the result (a success
payload, or the raised `HTTPException` as status and detail), the new
table and disk, and the detached tasks spawned. -/
def upload_file (guess : String → Option String) (base_url uuidStr : String)
    (db : DB) (disk : Disk) (file : UploadInput) (expiry_days : Option Int)
    (description : Option String) (now : Int) :
    Except (Nat × String) UploadOk × DB × Disk × List Task :=
  let _ := description
  let safe_filename := get_safe_filename uuidStr file.filename
  let original_filename :=
    match file.filename with
    | none => safe_filename
    | some fn => if fn = "" then safe_filename else fn
  let storage_path := get_unique_path disk ("storage/" ++ safe_filename)
  let (disk1, sizeRes) := write_loop file.chunks (diskWrite disk storage_path []) storage_path 0
  match sizeRes with
  | none => (.error (413, TOO_LARGE_DETAIL), db, disk1, [])
  | some file_size =>
      let content_type := detect_content_type guess file.content_type original_filename
      let expires_at : Option Int :=
        match expiry_days with
        | none => none
        | some d => if d = 0 then none else some (now + d * MICROS_PER_DAY)
      let url_path := safe_filename
      -- add_new_file: the unique constraint on file_path makes the insert
      -- fail when the path already exists; the generic handler then turns
      -- the exception into a 500.
      match db_find db url_path with
      | some _ =>
          (.error (500, "Error uploading file: UNIQUE constraint failed: files.file_path"),
            db, disk1, [])
      | none =>
          let rid := db_next_id db
          let rec_ : FileRecord :=
            { id := rid, file_path := url_path, storage_path := storage_path,
              file_name := original_filename, file_type := content_type,
              file_size := file_size, access_count := 0, last_accessed := none,
              expires_at := expires_at, uploaded_at := now }
          let db1 := db ++ [rec_]
          let tasks : List Task :=
            match expires_at with
            | some _ => [.autoDelete rid]
            | none => []
          (.ok { file_name := original_filename, file_size := file_size,
                 content_type := content_type,
                 file_url := base_url ++ "/file/view/" ++ url_path,
                 download_url := base_url ++ "/file/download/" ++ url_path,
                 expires_at := expires_at }, db1, disk1, tasks)

/-- One element of the `results` list built by `upload_multiple_files`:
either the `JSONResponse` object `upload_file` returned, or the
`error / file_name` dict built from a caught `HTTPException`. -/
inductive MultiEntry where
  | respObj (payload : UploadOk)
  | errDict (err : String) (file_name : Option String)
deriving DecidableEq, Repr

/-- The membership test `"error" not in r` of the two counting
comprehensions.  On the error dict it is an ordinary key test; on a
`JSONResponse` object Python raises
`TypeError: argument of type JSONResponse is not iterable`. -/
def entry_has_error_key : MultiEntry → Except String Bool
  | .errDict _ _ => .ok true
  | .respObj _ => .error "TypeError: argument of type JSONResponse is not iterable"

/-- `len([r for r in results if "error" not in r])`. -/
def count_without_error : List MultiEntry → Except String Nat
  | [] => .ok 0
  | e :: rest => do
      let hasKey ← entry_has_error_key e
      let n ← count_without_error rest
      pure (if hasKey then n else n + 1)

/-- `len([r for r in results if "error" in r])`. -/
def count_with_error : List MultiEntry → Except String Nat
  | [] => .ok 0
  | e :: rest => do
      let hasKey ← entry_has_error_key e
      let n ← count_with_error rest
      pure (if hasKey then n + 1 else n)

/-- The outcome of the multi-upload endpoint. -/
inductive MultiResult where
  /-- `HTTPException(400, "No files provided")`. -/
  | badRequest
  /-- An uncaught Python exception escaping the handler (a 500). -/
  | crash (msg : String)
  /-- The aggregate JSON payload. -/
  | payload (uploaded_count failed_count : Nat) (files : List MultiEntry)
deriving DecidableEq, Repr

/-- The sequential per-file loop of `upload_multiple_files`; `uuidOf i` is
the uuid generated for the i-th file. -/
def multi_loop (guess : String → Option String) (base_url : String)
    (uuidOf : Nat → String) (expiry_days : Option Int)
    (description : Option String) (now : Int) :
    List UploadInput → Nat → DB → Disk → List Task → List MultiEntry →
    List MultiEntry × DB × Disk × List Task
  | [], _, db, disk, ts, acc => (acc.reverse, db, disk, ts)
  | f :: fs, i, db, disk, ts, acc =>
      let (res, db1, disk1, ts1) :=
        upload_file guess base_url (uuidOf i) db disk f expiry_days description now
      let entry : MultiEntry :=
        match res with
        | .ok payload => .respObj payload
        | .error (_, detail) => .errDict detail f.filename
      multi_loop guess base_url uuidOf expiry_days description now
        fs (i + 1) db1 disk1 (ts ++ ts1) (entry :: acc)

/-- `upload_multiple_files`: 400 on an empty list, else run the
single-upload procedure per file in order and build the aggregate
payload.  The two counting comprehensions run the membership test on
every collected entry, so a collected `JSONResponse` (any successful
upload) raises a TypeError that escapes the handler. -/
def upload_multiple_files (guess : String → Option String) (base_url : String)
    (uuidOf : Nat → String) (db : DB) (disk : Disk) (files : List UploadInput)
    (expiry_days : Option Int) (description : Option String) (now : Int) :
    MultiResult × DB × Disk × List Task :=
  if files.isEmpty then (.badRequest, db, disk, [])
  else
    let (entries, db1, disk1, ts) :=
      multi_loop guess base_url uuidOf expiry_days description now
        files 0 db disk [] []
    match count_without_error entries with
    | .error m => (.crash m, db1, disk1, ts)
    | .ok u =>
        match count_with_error entries with
        | .error m => (.crash m, db1, disk1, ts)
        | .ok f => (.payload u f entries, db1, disk1, ts)

/-! ## Rate limiter (modules/rate_limiter.py) -/

/-- Rate limiter state: the configured `(times, seconds)` pair and one
deque of request timestamps per client ip (`defaultdict` of empty
deques).  `time.time()` values are modelled as rationals. -/
structure RateLimiter where
  times : Nat
  seconds : Nat
  requests : String → List Rat

/-- The popleft loop
`while request_times and request_times[0] <= current_time - self.seconds`. -/
def drop_old (q : List Rat) (cutoff : Rat) : List Rat :=
  match q with
  | [] => []
  | t :: rest => if t ≤ cutoff then drop_old rest cutoff else t :: rest

/-- `deque(maxlen=times).append x`: a full deque evicts from the left.
(The call site only appends below capacity, so the eviction branch is
unreachable there.) -/
def deque_append (maxlen : Nat) (q : List Rat) (x : Rat) : List Rat :=
  if maxlen ≤ q.length then (q.drop (q.length + 1 - maxlen)) ++ [x] else q ++ [x]

/-- `RateLimiter.__call__`: drop stale timestamps, then either raise 429
(`false`, timestamp not recorded) or record the timestamp and allow
(`true`).  The per-client deque is mutated in place in both cases. -/
def rl_call (rl : RateLimiter) (client_ip : String) (now : Rat) :
    RateLimiter × Bool :=
  let q := rl.requests client_ip
  let q1 := drop_old q (now - (rl.seconds : Rat))
  if rl.times ≤ q1.length then
    ({ rl with requests := fun c => if c = client_ip then q1 else rl.requests c },
      false)
  else
    ({ rl with requests := fun c =>
        if c = client_ip then deque_append rl.times q1 now else rl.requests c },
      true)

/-- A fresh limiter with `N` and `W` and no recorded requests. -/
def rl_init (times seconds : Nat) : RateLimiter :=
  { times := times, seconds := seconds, requests := fun _ => [] }

/-- A sequence of invocations by the same client at the given instants,
collecting each allow/deny outcome in order. -/
def rl_run (ip : String) : RateLimiter → List Rat → RateLimiter × List Bool
  | rl, [] => (rl, [])
  | rl, t :: ts =>
      let s := rl_call rl ip t
      let rest := rl_run ip s.1 ts
      (rest.1, s.2 :: rest.2)

/-! ## Authorization guard (modules/functions.py, `authorize_admin`) -/

/-- Outcome of the admin guard. -/
inductive AuthResult where
  /-- The dependency returns `True`. -/
  | ok
  /-- `HTTPException(401, "Unauthorized")`. -/
  | unauthorized
  /-- `HTTPException(403, "Forbidden")`. -/
  | forbidden
  /-- `authorization.split(" ")[1]` raised IndexError (an uncaught 500). -/
  | indexError
deriving DecidableEq, Repr

/-- `authorize_admin(request)` as a function of the Authorization header
value and the configured master key.  `request.headers.get` yields `none`
when absent; `if not …` also treats an empty value as absent. -/
def authorize_admin (header : Option String) (master_key : String) : AuthResult :=
  match header with
  | none => .unauthorized
  | some v =>
      if v = "" then .unauthorized
      else if containsSub v.toList "Bearer".toList then
        match (pySplitSpace v).get? 1 with
        | none => .indexError
        | some token => if token = master_key then .ok else .forbidden
      else
        if v = master_key then .ok else .forbidden

/-! ## Date utility (modules/functions.py, `fetch_date`) -/

/-- Days from 1970-01-01 to the given civil date (proleptic Gregorian),
for dates from year 1 on. -/
def days_from_civil (y m d : Nat) : Int :=
  let y1 := y - (if m ≤ 2 then 1 else 0)
  let era := y1 / 400
  let yoe := y1 - era * 400
  let mp := (m + 9) % 12
  let doy := (153 * mp + 2) / 5 + d - 1
  let doe := yoe * 365 + yoe / 4 - yoe / 100 + doy
  ((era * 146097 + doe : Nat) : Int) - 719468

/-- A parsed `datetime`: civil fields plus an optional UTC offset in
minutes (`none` = naive). -/
structure CivilDT where
  year : Nat
  month : Nat
  day : Nat
  hour : Nat
  minute : Nat
  second : Nat
  micro : Nat
  offsetMinutes : Option Int
deriving DecidableEq, Repr

/-- The microsecond count of the civil fields read on a UTC timeline. -/
def naiveMicros (c : CivilDT) : Int :=
  days_from_civil c.year c.month c.day * 86400000000 +
    (((c.hour * 3600 + c.minute * 60 + c.second) * 1000000 + c.micro : Nat) : Int)

/-- The UTC instant at the given civil time. -/
def utcInstant (y m d h mi s us : Nat) : Int :=
  naiveMicros ⟨y, m, d, h, mi, s, us, none⟩

/-- `dt.astimezone(timezone.utc)` as an instant: an aware datetime keeps
its own offset; a naive one is interpreted in the system local timezone
(`localOffsetMinutes`) first. -/
def astimezone_utc (localOffsetMinutes : Int) (c : CivilDT) : Int :=
  match c.offsetMinutes with
  | some off => naiveMicros c - off * 60000000
  | none => naiveMicros c - localOffsetMinutes * 60000000

/-- Are all characters decimal digits (and the list non-empty)? -/
def allDigits : List Char → Bool
  | [] => false
  | [c] => c.isDigit
  | c :: rest => c.isDigit && allDigits rest

/-- Read a digit list as a number. -/
def digitsVal (cs : List Char) : Nat :=
  cs.foldl (fun acc c => acc * 10 + (c.toNat - 48)) 0

/-- Parse the optional `+HH:MM` or `-HH:MM` suffix. -/
def parseOffsetTail : List Char → Option (Option Int)
  | [] => some none
  | s :: h1 :: h2 :: ':' :: m1 :: m2 :: [] =>
      if (s = '+' || s = '-') && [h1, h2, m1, m2].all Char.isDigit then
        let mins : Int := digitsVal [h1, h2] * 60 + digitsVal [m1, m2]
        some (some (if s = '-' then -mins else mins))
      else none
  | _ => none

/-- Parse the optional fractional-seconds part then the offset. -/
def parseFracTail : List Char → Option (Nat × Option Int)
  | [] => some (0, none)
  | '.' :: rest =>
      let frac := rest.takeWhile Char.isDigit
      let rest1 := rest.dropWhile Char.isDigit
      if frac.length = 0 || 6 < frac.length then none
      else
        match parseOffsetTail rest1 with
        | none => none
        | some off => some (digitsVal frac * 10 ^ (6 - frac.length), off)
  | other =>
      match parseOffsetTail other with
      | none => none
      | some off => some (0, off)

/-- `datetime.fromisoformat` restricted to the grammar the service
actually meets: `YYYY-MM-DD HH:MM:SS`, optional `.ffffff`, optional
`+HH:MM` offset (a `T` separator is also accepted). -/
def fromisoformat (s : String) : Option CivilDT :=
  match s.toList with
  | y1 :: y2 :: y3 :: y4 :: '-' :: m1 :: m2 :: '-' :: d1 :: d2 :: sep ::
      h1 :: h2 :: ':' :: mi1 :: mi2 :: ':' :: s1 :: s2 :: rest =>
      if (sep = ' ' || sep = 'T') &&
          [y1, y2, y3, y4, m1, m2, d1, d2, h1, h2, mi1, mi2, s1, s2].all Char.isDigit then
        match parseFracTail rest with
        | none => none
        | some (us, off) =>
            let y := digitsVal [y1, y2, y3, y4]
            let mo := digitsVal [m1, m2]
            let da := digitsVal [d1, d2]
            let ho := digitsVal [h1, h2]
            let mi := digitsVal [mi1, mi2]
            let se := digitsVal [s1, s2]
            if 1 ≤ mo && mo ≤ 12 && 1 ≤ da && da ≤ 31 && ho ≤ 23 && mi ≤ 59 && se ≤ 59 then
              some ⟨y, mo, da, ho, mi, se, us, off⟩
            else none
      else none
  | _ => none

/-- `datetime.strptime(date_str, "%Y-%m-%d %H:%M:%S")`: the bare format,
always naive. -/
def strptimeFallback (s : String) : Option CivilDT :=
  match fromisoformat s with
  | some c =>
      -- the fixed pattern admits no fraction, no offset and only a space
      -- separator
      if c.micro = 0 && c.offsetMinutes = none && s.toList.get? 10 = some ' ' then
        some c
      else none
  | none => none

/-- `fetch_date(date_str)`: ISO parsing first, the fixed fallback pattern
on ValueError, and the result converted with `.astimezone(timezone.utc)`
— which for a naive value means interpreting it in the system local
timezone.  `none` stands for the paths with no returned datetime. -/
def fetch_date (localOffsetMinutes : Int) (s : String) : Option Int :=
  match fromisoformat s with
  | some c => some (astimezone_utc localOffsetMinutes c)
  | none =>
      match strptimeFallback s with
      | some c => some (astimezone_utc localOffsetMinutes c)
      | none => none

/-! ## Concrete sample states shared by witnesses and counterexamples -/

/-- A guesser that never recognises an extension. -/
def noGuess : String → Option String := fun _ => none

/-- A stored image record with no expiry. -/
def sampleRec : FileRecord :=
  { id := 1, file_path := "a.png", storage_path := "storage/a.png",
    file_name := "a.png", file_type := "image/png", file_size := 3,
    access_count := 0, last_accessed := none, expires_at := none,
    uploaded_at := 0 }

/-- The same record with an expiry already in the past at time 10. -/
def sampleRecExpired : FileRecord := { sampleRec with expires_at := some 5 }

/-- A disk holding the sample record's bytes. -/
def sampleDisk : Disk := [("storage/a.png", [1, 2, 3])]

/-- A concrete stand-in for the PIL re-encoder. -/
def sampleCompressFn : CompressFn := fun _ _ _ _ _ => [9, 9]

/-- A compress request with an empty JSON body. -/
def emptyBody : CompressBody := ⟨none, none, none, none⟩

/-- A small, well-formed upload that succeeds on an empty server. -/
def smallFile : UploadInput := ⟨some "b.png", some "image/png", [[7, 8]]⟩

/-- A single chunk one byte past the 5 GiB ceiling. -/
def bigChunk : List Nat := List.replicate (FILE_SIZE_LIMIT + 1) 0

/-- An upload whose first chunk alone exceeds the limit. -/
def bigFile : UploadInput := ⟨some "big.bin", none, [bigChunk]⟩

/-- The double-view scenario: view the same path at `t1` and then at `t2`,
returning both responses and the final state. -/
def view_twice (guess : String → Option String) (db : DB) (disk : Disk)
    (p : String) (t1 t2 : Int) : Resp × Resp × DB × Disk :=
  let s1 := view_once guess db disk p t1
  let s2 := view_once guess s1.2.1 s1.2.2 p t2
  (s1.1, s2.1, s2.2.1, s2.2.2)

/-- The byte count the streaming loop actually receives: the chunk sizes
up to the first empty chunk (an empty read ends the stream). -/
def received_size (chunks : List (List Nat)) : Nat :=
  ((chunks.takeWhile fun c => c.length != 0).map List.length).sum

/-! ## Helper lemmas about the table and the disk -/

/-- A row after one access update: counter incremented, last access set. -/
def bumpRec (r : FileRecord) (now : Int) : FileRecord :=
  { r with access_count := r.access_count + 1, last_accessed := some now }

/-- The access update leaves the looked-up row in place, with its counter
incremented and its last-access time set. -/
theorem db_find_bump_access (db : DB) (p : String) (now : Int) (r : FileRecord)
    (h : db_find db p = some r) :
    db_find (db_bump_access db p now) p = some (bumpRec r now) := by
  induction db with
  | nil => simp [db_find] at h
  | cons a rest ih =>
      by_cases hp : a.file_path = p
      · simp only [db_find, if_pos hp] at h
        cases h
        simp [db_bump_access, db_find, bumpRec, hp]
      · simp only [db_find, if_neg hp] at h
        simpa [db_bump_access, db_find, hp] using ih h

/-- A miss is not affected by the (no-op) access update. -/
theorem db_find_bump_access_none (db : DB) (p : String) (now : Int)
    (h : db_find db p = none) :
    db_find (db_bump_access db p now) p = none := by
  induction db with
  | nil => simp [db_bump_access, db_find]
  | cons a rest ih =>
      by_cases hp : a.file_path = p
      · simp [db_find, if_pos hp] at h
      · simp only [db_find, if_neg hp] at h
        simpa [db_bump_access, db_find, hp] using ih h

/-- Removing a freshly created file restores the original disk. -/
theorem diskRemove_diskWrite_fresh (d : Disk) (p : String) (c : List Nat)
    (h : diskGet d p = none) :
    diskRemove (diskWrite d p c) p = d := by
  induction d with
  | nil => simp [diskWrite, diskRemove]
  | cons e rest ih =>
      obtain ⟨q, c0⟩ := e
      by_cases hq : q = p
      · simp [diskGet, if_pos hq] at h
      · simp only [diskGet, if_neg hq] at h
        simp [diskWrite, diskRemove, hq, ih h]

/-- Appending to a just-written file is writing the concatenation. -/
theorem diskAppend_diskWrite (d : Disk) (p : String) (w c : List Nat) :
    diskAppend (diskWrite d p w) p c = diskWrite d p (w ++ c) := by
  induction d with
  | nil => simp [diskWrite, diskAppend]
  | cons e rest ih =>
      obtain ⟨q, c0⟩ := e
      by_cases hq : q = p
      · simp [diskWrite, diskAppend, hq]
      · simp [diskWrite, diskAppend, hq, ih]

/-! ## C1: view and download resolution errors -/

/-- C1.  For every request to the view or download endpoint with public
path p: if no File Record with file_path p exists the response is
NotFound (404); if the record exists and its expires_at is set and earlier
than the current time the response is Gone (410) even though the row still
exists; if the record exists, is unexpired, and the file at its
storage_path is missing on disk, the response is NotFound (404). -/
theorem serve_file_resolution_errors (guess : String → Option String)
    (db : DB) (disk : Disk) (p : String) (dl : Bool) (now : Int) :
    (db_find db p = none →
      serve_file guess db disk p dl now = (.httpError 404 "File not found", db, [])) ∧
    (∀ r e, db_find db p = some r → r.expires_at = some e → e < now →
      serve_file guess db disk p dl now
          = (.httpError 410 "File has expired", db_bump_access db p now, []) ∧
        ∃ r1, db_find (db_bump_access db p now) p = some r1) ∧
    (∀ r, db_find db p = some r →
      (∀ e, r.expires_at = some e → ¬ e < now) →
      (r.storage_path = "" ∨ diskGet disk r.storage_path = none) →
      serve_file guess db disk p dl now
        = (.httpError 404 "File not found in storage", db_bump_access db p now, [])) := by
  refine ⟨fun h => ?_, fun r e hf he hlt => ⟨?_, ?_⟩, fun r hf hnx hmiss => ?_⟩
  · simp [serve_file, get_file, h]
  · simp [serve_file, get_file, hf, he, hlt]
  · exact ⟨_, db_find_bump_access db p now r hf⟩
  · have hexp : (match r.expires_at with
        | some e => decide (e < now)
        | none => false) = false := by
      cases hx : r.expires_at with
      | none => rfl
      | some e => simpa using hnx e hx
    have hm : (r.storage_path = "" || (diskGet disk r.storage_path).isNone) = true := by
      rcases hmiss with h1 | h2
      · simp [h1]
      · simp [h2]
    simp [serve_file, get_file, hf, hexp, hm]

/-- Witness for C1: the three error paths at concrete states. -/
theorem serve_file_resolution_errors_witness :
    serve_file noGuess [] [] "x" false 0 = (.httpError 404 "File not found", [], []) ∧
    serve_file noGuess [sampleRecExpired] sampleDisk "a.png" false 10
      = (.httpError 410 "File has expired",
          db_bump_access [sampleRecExpired] "a.png" 10, []) ∧
    serve_file noGuess [sampleRec] [] "a.png" true 10
      = (.httpError 404 "File not found in storage",
          db_bump_access [sampleRec] "a.png" 10, []) := by
  refine ⟨?_, ?_, ?_⟩
  · exact (serve_file_resolution_errors noGuess [] [] "x" false 0).1 rfl
  · exact ((serve_file_resolution_errors noGuess [sampleRecExpired] sampleDisk
      "a.png" false 10).2.1 sampleRecExpired 5 (by decide) (by decide) (by decide)).1
  · exact (serve_file_resolution_errors noGuess [sampleRec] [] "a.png" true 10).2.2
      sampleRec (by decide) (by intro e he; simp [sampleRec] at he) (Or.inr rfl)

/-! ## C10: admin delete and compress bump the access counter -/

/-- C10.  Calling the admin delete endpoint or the admin compress endpoint
on an existing public file path increments the record's access_count and
sets its last_accessed, because both handlers resolve the record via the
access-counting get_file lookup; the side effect persists whenever the
request then fails (and for compress even on success, since compress never
removes the row). -/
theorem admin_lookup_bumps_access (cf : CompressFn) (db : DB) (disk : Disk)
    (p : String) (now : Int) (body : CompressBody) (r : FileRecord)
    (hfind : db_find db p = some r) :
    (∀ code detail, (delete_route db disk p now).1 = Resp.httpError code detail →
      db_find (delete_route db disk p now).2.1 p = some (bumpRec r now)) ∧
    db_find (compress_file cf db disk p now body).2.1 p = some (bumpRec r now) := by
  have hbump := db_find_bump_access db p now r hfind
  constructor
  · intro code detail hresp
    simp only [delete_route, get_file, hfind] at hresp ⊢
    by_cases hex : (match r.expires_at with
        | some e => decide (e < now)
        | none => false) = true
    · simp [hex, hbump]
    · by_cases hm : (r.storage_path = "" || (diskGet disk r.storage_path).isNone) = true
      · simp [hex, hm, hbump]
      · simp [hex, hm] at hresp
  · simp only [compress_file, get_file, hfind]
    by_cases hex : (match r.expires_at with
        | some e => decide (e < now)
        | none => false) = true
    · simp [hex, hbump]
    · cases hps : parse_compress_params body <;> simp [hex, hps, hbump]

/-- Witness for C10: an expired record; delete answers 410 and the row is
left behind with its counter bumped, and compress bumps it too. -/
theorem admin_lookup_bumps_access_witness :
    db_find (delete_route [sampleRecExpired] sampleDisk "a.png" 10).2.1 "a.png"
      = some (bumpRec sampleRecExpired 10) ∧
    db_find (compress_file sampleCompressFn [sampleRecExpired] sampleDisk
        "a.png" 10 emptyBody).2.1 "a.png"
      = some (bumpRec sampleRecExpired 10) := by
  have h := admin_lookup_bumps_access sampleCompressFn [sampleRecExpired] sampleDisk
    "a.png" 10 emptyBody sampleRecExpired (by decide)
  exact ⟨h.1 410 "File has expired" (by decide), h.2⟩

/-! ## C2: two views and the access counter -/

/-- Every shaping branch yields a served file, never an error. -/
theorem shape_response_isServed (dl : Bool) (ct : String) (fd : FileRecord) :
    (shape_response dl ct fd).isServed = true := by
  cases dl <;> simp only [shape_response] <;> split_ifs <;> rfl

/-- On a resolvable, unexpired record whose bytes are present, `serve_file`
serves the file (whichever shaping branch applies), its table state is the
one access bump of `get_file`, and it spawns exactly the detached
`update_file_access` task. -/
theorem serve_file_success_shape (guess : String → Option String)
    (db : DB) (disk : Disk) (p : String) (dl : Bool) (now : Int) (r : FileRecord)
    (hfind : db_find db p = some r)
    (hexp : (match r.expires_at with
      | some e => decide (e < now)
      | none => false) = false)
    (hsp : (r.storage_path = "" || (diskGet disk r.storage_path).isNone) = false) :
    serve_file guess db disk p dl now
      = (shape_response dl (resolve_content_type guess r) r,
          db_bump_access db p now, [Task.updateAccess p]) := by
  simp [serve_file, get_file, hfind, hexp, hsp]

/-- A complete successful view: response served, both access bumps applied
(the synchronous one of `get_file` and the detached
`update_file_access`), disk untouched. -/
theorem view_once_shape (guess : String → Option String)
    (db : DB) (disk : Disk) (p : String) (now : Int) (r : FileRecord)
    (hfind : db_find db p = some r)
    (hexp : (match r.expires_at with
      | some e => decide (e < now)
      | none => false) = false)
    (hsp : (r.storage_path = "" || (diskGet disk r.storage_path).isNone) = false) :
    view_once guess db disk p now
      = (shape_response false (resolve_content_type guess r) r,
          db_bump_access (db_bump_access db p now) p now, disk) := by
  have hs := serve_file_success_shape guess db disk p false now r hfind hexp hsp
  simp [view_once, hs, run_tasks, run_task, update_file_access]

/-- Counterexample to C2 as stated: viewing the sample file twice leaves
access_count at 4, not at the claimed old value + 2 — each successful view
increments twice (once in the `get_file` lookup, once in the detached
`update_file_access` task). -/
theorem view_twice_access_count_cex :
    (db_find (view_twice noGuess [sampleRec] sampleDisk "a.png" 10 20).2.2.1 "a.png").map
        FileRecord.access_count = some 4 ∧
    ¬ (db_find (view_twice noGuess [sampleRec] sampleDisk "a.png" 10 20).2.2.1 "a.png").map
        FileRecord.access_count = some (sampleRec.access_count + 2) := by
  decide

/-- C2 (amended).  For every stored, unexpired file whose bytes are on
disk, performing the view operation twice on its public path increases the
record's access_count by exactly 4 in total (exactly 2 per successful
view: one from the `get_file` lookup and one from the detached
`update_file_access` task) and leaves last_accessed equal to the time of
the second access. -/
theorem view_twice_access_plus_four (guess : String → Option String)
    (db : DB) (disk : Disk) (p : String) (t1 t2 : Int) (r : FileRecord)
    (hfind : db_find db p = some r)
    (hexp1 : ∀ e, r.expires_at = some e → ¬ e < t1)
    (hexp2 : ∀ e, r.expires_at = some e → ¬ e < t2)
    (hsp : ¬ r.storage_path = "")
    (hdisk : (diskGet disk r.storage_path).isSome = true) :
    (view_twice guess db disk p t1 t2).1.isServed = true ∧
    (view_twice guess db disk p t1 t2).2.1.isServed = true ∧
    db_find (view_twice guess db disk p t1 t2).2.2.1 p
      = some { r with access_count := r.access_count + 4, last_accessed := some t2 } := by
  have hspB : (r.storage_path = "" || (diskGet disk r.storage_path).isNone) = false := by
    cases hd : diskGet disk r.storage_path with
    | none => rw [hd] at hdisk; simp at hdisk
    | some bs => simp [hsp, hd]
  have hexpB1 : (match r.expires_at with
      | some e => decide (e < t1)
      | none => false) = false := by
    cases hx : r.expires_at with
    | none => rfl
    | some e => simpa using hexp1 e hx
  have hexpB2 : (match r.expires_at with
      | some e => decide (e < t2)
      | none => false) = false := by
    cases hx : r.expires_at with
    | none => rfl
    | some e => simpa using hexp2 e hx
  have hs1 := view_once_shape guess db disk p t1 r hfind hexpB1 hspB
  have hfind1 : db_find (db_bump_access (db_bump_access db p t1) p t1) p
      = some (bumpRec (bumpRec r t1) t1) := by
    exact db_find_bump_access _ p t1 _ (db_find_bump_access db p t1 r hfind)
  have hexpB2' : (match (bumpRec (bumpRec r t1) t1).expires_at with
      | some e => decide (e < t2)
      | none => false) = false := by simpa [bumpRec] using hexpB2
  have hspB' : ((bumpRec (bumpRec r t1) t1).storage_path = ""
      || (diskGet disk (bumpRec (bumpRec r t1) t1).storage_path).isNone) = false := by
    simpa [bumpRec] using hspB
  have hs2 := view_once_shape guess
    (db_bump_access (db_bump_access db p t1) p t1) disk p t2
    (bumpRec (bumpRec r t1) t1) hfind1 hexpB2' hspB'
  have hfind2 : db_find (db_bump_access (db_bump_access
        (db_bump_access (db_bump_access db p t1) p t1) p t2) p t2) p
      = some (bumpRec (bumpRec (bumpRec (bumpRec r t1) t1) t2) t2) := by
    exact db_find_bump_access _ p t2 _ (db_find_bump_access _ p t2 _ hfind1)
  have hcount : r.access_count + 1 + 1 + 1 + 1 = r.access_count + 4 := by omega
  have hrec : bumpRec (bumpRec (bumpRec (bumpRec r t1) t1) t2) t2
      = { r with access_count := r.access_count + 4, last_accessed := some t2 } := by
    simp only [bumpRec, hcount]
  refine ⟨?_, ?_, ?_⟩
  · simp [view_twice, hs1, shape_response_isServed]
  · simp [view_twice, hs1, hs2, shape_response_isServed]
  · simp only [view_twice, hs1, hs2]
    rw [hfind2, hrec]

/-- Witness for C2 (amended): the concrete double view. -/
theorem view_twice_access_plus_four_witness :
    (view_twice noGuess [sampleRec] sampleDisk "a.png" 10 20).1.isServed = true ∧
    (view_twice noGuess [sampleRec] sampleDisk "a.png" 10 20).2.1.isServed = true ∧
    db_find (view_twice noGuess [sampleRec] sampleDisk "a.png" 10 20).2.2.1 "a.png"
      = some { sampleRec with access_count := sampleRec.access_count + 4, last_accessed := some 20 } := by
  exact view_twice_access_plus_four noGuess [sampleRec] sampleDisk "a.png" 10 20 sampleRec
    (by decide) (by intro e he; simp [sampleRec] at he)
    (by intro e he; simp [sampleRec] at he) (by decide) (by decide)

/-! ## C3: uploads beyond 5 GiB abort and leave nothing behind -/

/-- If the received size pushes past the limit, the streaming loop deletes
the partial file and aborts, restoring the original (fresh-path) disk. -/
theorem write_loop_overflow (sp : String) (disk : Disk)
    (hfresh : diskGet disk sp = none) :
    ∀ (chunks : List (List Nat)) (w : List Nat) (size : Nat),
      size ≤ FILE_SIZE_LIMIT →
      FILE_SIZE_LIMIT < size + received_size chunks →
      write_loop chunks (diskWrite disk sp w) sp size = (disk, none) := by
  intro chunks
  induction chunks with
  | nil =>
      intro w size hle hbig
      simp [received_size] at hbig
      omega
  | cons c cs ih =>
      intro w size hle hbig
      by_cases hc : c.length = 0
      · simp [received_size, List.takeWhile_cons, hc] at hbig
        omega
      · have hrec : received_size (c :: cs) = c.length + received_size cs := by
          simp [received_size, List.takeWhile_cons, hc]
        by_cases hover : FILE_SIZE_LIMIT < size + c.length
        · simp only [write_loop, hc, if_false, hover, if_true]
          simp [diskRemove_diskWrite_fresh disk sp w hfresh, hc, hover]
        · have hstep : write_loop (c :: cs) (diskWrite disk sp w) sp size
              = write_loop cs (diskAppend (diskWrite disk sp w) sp c) sp (size + c.length) := by
            simp [write_loop, hc, hover]
          rw [hstep, diskAppend_diskWrite]
          exact ih (w ++ c) (size + c.length) (by omega) (by omega)

/-- C3.  A single-file upload whose cumulative received size exceeds
5 GiB fails with PayloadTooLarge (413), the partially written file is
removed from disk, and no File Record is inserted: the table, the disk and
the task list are exactly as before the request. -/
theorem upload_over_limit_aborts_clean (guess : String → Option String)
    (base_url uuidStr : String) (db : DB) (disk : Disk) (file : UploadInput)
    (expiry_days : Option Int) (desc : Option String) (now : Int)
    (hfresh : diskGet disk
      (get_unique_path disk ("storage/" ++ get_safe_filename uuidStr file.filename)) = none)
    (hbig : FILE_SIZE_LIMIT < received_size file.chunks) :
    upload_file guess base_url uuidStr db disk file expiry_days desc now
      = (.error (413, TOO_LARGE_DETAIL), db, disk, []) := by
  have hloop := write_loop_overflow
    (get_unique_path disk ("storage/" ++ get_safe_filename uuidStr file.filename)) disk
    hfresh file.chunks [] 0 (Nat.zero_le _) (by omega)
  simp [upload_file, hloop]

/-- Witness for C3: the oversized upload on an empty server. -/
theorem upload_over_limit_aborts_clean_witness :
    upload_file noGuess "http://localhost:8000" "u" [] [] bigFile none none 0
      = (.error (413, TOO_LARGE_DETAIL), [], [], []) := by
  refine upload_over_limit_aborts_clean noGuess "http://localhost:8000" "u" [] [] bigFile
    none none 0 rfl ?_
  have hlen : bigChunk.length = FILE_SIZE_LIMIT + 1 := by
    simp [bigChunk]
  have : received_size bigFile.chunks = FILE_SIZE_LIMIT + 1 := by
    simp [received_size, bigFile, List.takeWhile_cons, hlen]
  omega

/-! ## C4: what the compress endpoint answers for absent or expired files -/

/-- Evaluation of the compress handler on the claim's failing inputs: an
absent record, and an expired record.  In both cases the explicitly raised
404 and 410 HTTPExceptions are caught by the handler's own blanket
`except Exception` and turned into a 500 JSONResponse, so the endpoint
never answers NotFound (404) or Gone (410). -/
theorem compress_missing_or_expired_returns_500 (cf : CompressFn) (db : DB)
    (disk : Disk) (p : String) (now : Int) (body : CompressBody) :
    (db_find db p = none →
      compress_file cf db disk p now body
        = (.json 500 "Error compressing file", db, disk, [])) ∧
    (∀ r e, db_find db p = some r → r.expires_at = some e → e < now →
      compress_file cf db disk p now body
        = (.json 500 "Error compressing file", db_bump_access db p now, disk, [])) := by
  constructor
  · intro h
    simp [compress_file, get_file, h]
  · intro r e hf he hlt
    simp [compress_file, get_file, hf, he, hlt]

/-- Witness for C4's failing inputs: an empty table, and the expired
sample record, both answered with the 500 JSON body. -/
theorem compress_missing_or_expired_returns_500_witness :
    compress_file sampleCompressFn [] sampleDisk "a.png" 10 emptyBody
      = (.json 500 "Error compressing file", [], sampleDisk, []) ∧
    compress_file sampleCompressFn [sampleRecExpired] sampleDisk "a.png" 10 emptyBody
      = (.json 500 "Error compressing file",
          db_bump_access [sampleRecExpired] "a.png" 10, sampleDisk, []) := by
  constructor
  · exact (compress_missing_or_expired_returns_500 sampleCompressFn [] sampleDisk
      "a.png" 10 emptyBody).1 rfl
  · exact (compress_missing_or_expired_returns_500 sampleCompressFn [sampleRecExpired]
      sampleDisk "a.png" 10 emptyBody).2 sampleRecExpired 5 (by decide) (by decide) (by decide)

/-! ## C5: the compression task is awaited, not detached -/

/-- Counterexample to C5 as stated: on an accepted compress request, at
the moment the success acknowledgment is produced the re-encoding has
already completed — the stored bytes are already overwritten — and there
is no pending detached task, because the handler awaits the task it
creates. -/
theorem compress_task_awaited_cex :
    (compress_file sampleCompressFn [sampleRec] sampleDisk "a.png" 10 emptyBody).2.2.2
      = [] ∧
    (compress_file sampleCompressFn [sampleRec] sampleDisk "a.png" 10 emptyBody).2.2.1
      = [("storage/a.png", [9, 9])] ∧
    (compress_file sampleCompressFn [sampleRec] sampleDisk "a.png" 10 emptyBody).1
      = .json 200 "File compressed successfully" := by
  decide

/-- C5 (amended).  For every accepted compress request the handler awaits
the re-encoding task to completion before answering: the success
acknowledgment is returned with the re-encoding's effect already applied
to the stored bytes and with no pending detached task; the task's own
outcome is still only logged, never reflected in the response — the
response is the same success message even when the stored bytes are
missing and the task did nothing. -/
theorem compress_awaits_reencoding (cf : CompressFn) (db : DB) (disk : Disk)
    (p : String) (now : Int) (body : CompressBody) (r : FileRecord)
    (ps : CompressParams)
    (hfind : db_find db p = some r)
    (hexp : ∀ e, r.expires_at = some e → ¬ e < now)
    (hps : parse_compress_params body = some ps) :
    compress_file cf db disk p now body
      = (.json 200 "File compressed successfully", db_bump_access db p now,
          create_image_compression_task cf disk r.storage_path ps, []) := by
  have hexpB : (match r.expires_at with
      | some e => decide (e < now)
      | none => false) = false := by
    cases hx : r.expires_at with
    | none => rfl
    | some e => simpa using hexp e hx
  simp [compress_file, get_file, hfind, hexpB, hps]

/-- Witness for C5 (amended): the concrete accepted request; the returned
disk already carries the re-encoded bytes. -/
theorem compress_awaits_reencoding_witness :
    compress_file sampleCompressFn [sampleRec] sampleDisk "a.png" 10 emptyBody
      = (.json 200 "File compressed successfully",
          db_bump_access [sampleRec] "a.png" 10,
          create_image_compression_task sampleCompressFn sampleDisk "storage/a.png"
            ⟨75, none, false, false⟩, []) := by
  exact compress_awaits_reencoding sampleCompressFn [sampleRec] sampleDisk "a.png" 10
    emptyBody sampleRec ⟨75, none, false, false⟩ (by decide)
    (by intro e he; simp [sampleRec] at he) (by decide)

/-! ## C6: the sliding-window rate limiter -/

/-- On a chronologically ordered queue, the popleft loop removes exactly
the timestamps that have left the trailing window. -/
theorem drop_old_sorted (cutoff : Rat) :
    ∀ q : List Rat, q.Sorted (· ≤ ·) →
      drop_old q cutoff = q.filter fun t => decide (cutoff < t) := by
  intro q
  induction q with
  | nil => intro _; simp [drop_old]
  | cons t rest ih =>
      intro hs
      rw [List.sorted_cons] at hs
      by_cases ht : t ≤ cutoff
      · have : ¬ cutoff < t := not_lt.mpr ht
        simp only [drop_old, ht, if_true, List.filter_cons, this, decide_eq_true_eq,
          if_neg this]
        simpa using ih hs.2
      · have hlt : cutoff < t := not_le.mp ht
        have hall : ∀ b ∈ rest, decide (cutoff < b) = true := fun b hb =>
          decide_eq_true (lt_of_lt_of_le hlt (hs.1 b hb))
        simp [drop_old, ht, hlt, List.filter_cons, List.filter_eq_self.mpr hall]

/-- C6.  On each invocation the limiter drops the queued timestamps no
longer inside the trailing window (the queue being chronological by
construction), denies with 429 exactly when N timestamps remain queued —
leaving the queue as dropped — and otherwise appends the current
timestamp and allows.  In particular, with N = 3 and W = 5 seconds, four
requests inside five seconds of the first see the fourth denied, and a
request issued once the five-second window of the first has passed is
allowed again. -/
theorem rate_limiter_sliding_window :
    (∀ (rl : RateLimiter) (ip : String) (now : Rat),
      (rl.requests ip).Sorted (· ≤ ·) →
      ((rl_call rl ip now).2 = false ↔
        rl.times ≤ ((rl.requests ip).filter fun t =>
          decide (now - (rl.seconds : Rat) < t)).length) ∧
      ((rl_call rl ip now).2 = false →
        (rl_call rl ip now).1.requests ip
          = (rl.requests ip).filter fun t => decide (now - (rl.seconds : Rat) < t)) ∧
      (((rl.requests ip).filter fun t =>
          decide (now - (rl.seconds : Rat) < t)).length < rl.times →
        (rl_call rl ip now).2 = true ∧
        (rl_call rl ip now).1.requests ip
          = ((rl.requests ip).filter fun t =>
              decide (now - (rl.seconds : Rat) < t)) ++ [now])) ∧
    (∀ (ip : String) (t0 t1 t2 t3 t4 : Rat),
      t0 ≤ t1 → t1 ≤ t2 → t2 ≤ t3 → t3 ≤ t4 →
      t3 < t0 + 5 → t0 + 5 ≤ t4 →
      (rl_run ip (rl_init 3 5) [t0, t1, t2, t3, t4]).2
        = [true, true, true, false, true]) := by
  constructor
  · intro rl ip now hsort
    have hdrop := drop_old_sorted (now - (rl.seconds : Rat)) (rl.requests ip) hsort
    by_cases hge : rl.times ≤ ((rl.requests ip).filter fun t =>
        decide (now - (rl.seconds : Rat) < t)).length
    · refine ⟨by simp [rl_call, hdrop, hge], fun _ => by simp [rl_call, hdrop, hge],
        fun hlt => absurd hge (by omega)⟩
    · have hlt := Nat.lt_of_not_le hge
      refine ⟨by simp [rl_call, hdrop, hge], fun hfalse => ?_, fun _ => ?_⟩
      · exact absurd hfalse (by simp [rl_call, hdrop, hge])
      · constructor
        · simp [rl_call, hdrop, hge]
        · simp [rl_call, hdrop, hge, deque_append, Nat.not_le.mpr hlt,
            Nat.le_of_lt_succ]
  · intro ip t0 t1 t2 t3 t4 h01 h12 h23 h34 hwin hafter
    have k1 : ¬ t0 ≤ t1 - 5 := by linarith
    have k2 : ¬ t0 ≤ t2 - 5 := by linarith
    have k3 : ¬ t0 ≤ t3 - 5 := by linarith
    have k4 : t0 ≤ t4 - 5 := by linarith
    by_cases c1 : t1 ≤ t4 - 5
    · by_cases c2 : t2 ≤ t4 - 5
      · simp [rl_run, rl_call, rl_init, drop_old, deque_append, k1, k2, k3, k4, c1, c2]
      · simp [rl_run, rl_call, rl_init, drop_old, deque_append, k1, k2, k3, k4, c1, c2]
    · have c2 : ¬ t2 ≤ t4 - 5 := fun h => c1 (le_trans h12 h)
      simp [rl_run, rl_call, rl_init, drop_old, deque_append, k1, k2, k3, k4, c1, c2]

/-- Witness for C6: a concrete run 0, 1, 2, 3 then 5 seconds. -/
theorem rate_limiter_sliding_window_witness :
    (rl_run "c" (rl_init 3 5) [0, 1, 2, 3, 5]).2
      = [true, true, true, false, true] := by
  exact rate_limiter_sliding_window.2 "c" 0 1 2 3 5 (by norm_num) (by norm_num)
    (by norm_num) (by norm_num) (by norm_num) (by norm_num)

/-! ## C7: the admin authorization guard -/

/-- Counterexample to C7 as stated: the header value "Bearer" (no space,
no token) contains the substring "Bearer", so the guard indexes the
second space-separated field, which does not exist — an IndexError
escapes as a 500, neither Forbidden (403) nor success; and an empty
header value is treated as absent (401) rather than compared as a raw
token. -/
theorem authorize_bare_bearer_cex :
    authorize_admin (some "Bearer") "master_key" = .indexError ∧
    AuthResult.indexError ≠ .forbidden ∧
    AuthResult.indexError ≠ .ok ∧
    authorize_admin (some "") "master_key" = .unauthorized := by
  decide

/-- C7 (amended).  The guard answers Unauthorized (401) when the
Authorization header is absent or empty; when the header value contains
"Bearer" as a substring the token is its second space-separated field —
and when no such field exists the guard raises an IndexError that escapes
as a 500 —, otherwise the token is the raw header value; a well-formed
request fails with Forbidden (403) exactly when the extracted token
differs from the configured master key, and succeeds otherwise. -/
theorem authorize_admin_cases (h : Option String) (key : String) :
    (h = none → authorize_admin h key = .unauthorized) ∧
    (h = some "" → authorize_admin h key = .unauthorized) ∧
    (∀ v, h = some v → v ≠ "" →
      containsSub v.toList "Bearer".toList = false →
      authorize_admin h key = (if v = key then .ok else .forbidden)) ∧
    (∀ v tok, h = some v → v ≠ "" →
      containsSub v.toList "Bearer".toList = true →
      (pySplitSpace v).get? 1 = some tok →
      authorize_admin h key = (if tok = key then .ok else .forbidden)) ∧
    (∀ v, h = some v → v ≠ "" →
      containsSub v.toList "Bearer".toList = true →
      (pySplitSpace v).get? 1 = none →
      authorize_admin h key = .indexError) := by
  refine ⟨fun h0 => ?_, fun h0 => ?_, fun v h0 hne hb => ?_,
    fun v tok h0 hne hb hget => ?_, fun v h0 hne hb hget => ?_⟩
  · simp [h0, authorize_admin]
  · simp [h0, authorize_admin]
  · subst h0
    simp only [authorize_admin]
    rw [if_neg hne, hb]
    simp
  · subst h0
    simp only [authorize_admin]
    rw [if_neg hne, hb, if_pos rfl, hget]
  · subst h0
    simp only [authorize_admin]
    rw [if_neg hne, hb, if_pos rfl, hget]

/-- Witness for C7 (amended): a proper bearer credential succeeds. -/
theorem authorize_admin_cases_witness :
    authorize_admin (some "Bearer master_key") "master_key"
      = (if "master_key" = "master_key" then AuthResult.ok else .forbidden) := by
  exact (authorize_admin_cases (some "Bearer master_key") "master_key").2.2.2.1
    "Bearer master_key" "master_key" rfl (by decide) (by decide) (by decide)

/-! ## C8: what fetch_date makes of aware and naive timestamps -/

/-- Counterexample to C8 as stated: on a system whose local timezone
offset is +06:00 (360 minutes — Asia/Dhaka, the zone the service itself
pins for its logs), the offset-less string is parsed as naive local time,
so its normalized instant is 06:56:56 UTC, not 12:56:56 UTC. -/
theorem fetch_date_naive_local_cex :
    fetch_date 360 "2025-05-11 12:56:56" ≠ some (utcInstant 2025 5 11 12 56 56 0) ∧
    fetch_date 360 "2025-05-11 12:56:56" = some (utcInstant 2025 5 11 6 56 56 0) := by
  decide

/-- C8 (amended).  The offset-carrying string always parses to the UTC
instant 2025-05-11 12:56:56.785356 whatever the system timezone; the
offset-less string parses as a naive datetime that `astimezone` interprets
in the system local timezone, yielding 12:56:56 minus the local offset —
equal to 12:56:56 UTC only when that offset is zero. -/
theorem fetch_date_utc_normalization (off : Int) :
    fetch_date off "2025-05-11 12:56:56.785356+00:00"
      = some (utcInstant 2025 5 11 12 56 56 785356) ∧
    fetch_date off "2025-05-11 12:56:56"
      = some (utcInstant 2025 5 11 12 56 56 0 - off * 60000000) := by
  have h1 : fromisoformat "2025-05-11 12:56:56.785356+00:00"
      = some ⟨2025, 5, 11, 12, 56, 56, 785356, some 0⟩ := by decide
  have h2 : fromisoformat "2025-05-11 12:56:56"
      = some ⟨2025, 5, 11, 12, 56, 56, 0, none⟩ := by decide
  constructor
  · simp [fetch_date, h1, astimezone_utc]
    decide
  · simp [fetch_date, h2, astimezone_utc, utcInstant]

/-! ## C9: the multi-upload endpoint and its aggregate counts -/

/-- Evaluation of the multi-upload endpoint at the claim's failing input:
one file whose upload succeeds.  The collected per-file result is the
success `JSONResponse` object itself, so the counting comprehension's
membership test raises a TypeError that escapes the handler as a 500 —
no aggregate payload with uploaded_count/failed_count is returned, even
though the upload itself completed (a row was inserted and the bytes are
on disk). -/
theorem upload_multiple_success_crashes :
    (upload_multiple_files noGuess "http://localhost:8000" (fun i => "u" ++ toString i)
        [] [] [smallFile] none none 0).1
      = .crash "TypeError: argument of type JSONResponse is not iterable" ∧
    ((upload_multiple_files noGuess "http://localhost:8000" (fun i => "u" ++ toString i)
        [] [] [smallFile] none none 0).2.1).length = 1 := by
  decide

end SimpleMediaServer
